import Mathlib

/-!
Verification development for the stock-planner repository.

The Python sources are shallowly embedded: pandas cells are `Option ℚ`
(`none` models NaN / a cell that fails `pd.to_numeric`), pandas `.round(k)`
is round-half-to-even (numpy rounding) carried out exactly on rationals,
and dataframe transformations become functions on lists of records.
-/

namespace StockPlanner

/-- numpy/pandas rounding of a rational to an integer: round half to even. -/
def roundHalfEven (x : ℚ) : ℤ :=
  let f := ⌊x⌋
  let r := x - (f : ℚ)
  if r < 1/2 then f
  else if 1/2 < r then f + 1
  else if f % 2 = 0 then f else f + 1

/-- pandas `.round(1)`: round to one decimal place, half to even. -/
def round1 (x : ℚ) : ℚ := (roundHalfEven (10 * x) : ℚ) / 10

/-- Python `pd.to_numeric(col, errors="coerce").fillna(0)` applied to one cell:
a cell that is missing or fails to parse counts as 0. -/
def numOr0 (c : Option ℚ) : ℚ := c.getD 0

/-- The list `[s, s+1, …, s+n-1]` (used to state 1-based rank assignment). -/
def iotaFrom : ℕ → ℕ → List ℕ
  | _, 0 => []
  | s, n + 1 => s :: iotaFrom (s + 1) n

/-! Part: src/alerts.py -/

/-- Python `CUST_ALERT_EXCLUDE_ITEMNOS` from src/alerts.py: items supplied daily from
MPI whose customer alert is always blanked. -/
def CUST_ALERT_EXCLUDE_ITEMNOS : List String :=
  ["1002010105", "1002010107", "1002010301", "1002010302", "1002010303",
   "1002010304", "1002010305", "1002010308", "1002010401", "1002010405",
   "1002010410", "1002010411", "1002010412", "1002010413", "1002010414",
   "1002020101", "1002080101", "1002080102", "1002080103", "1002080104",
   "1002080201", "1002080202", "1002080203", "1002080204", "1002080302",
   "1002080303", "1002080304", "1002080401", "1002080402", "1002080501",
   "1002080502", "1002080601", "1002080701", "1002080801", "1002080901",
   "1002090101", "1002080301", "1002100102", "1001060606", "1001060607",
   "1001090305"]

/-- Python `_digits_only` from src/alerts.py: keep digits only and strip leading
zeros (an all-zero or digit-free string becomes the empty string). -/
def digitsOnly (x : String) : String :=
  String.mk ((x.toList.filter Char.isDigit).dropWhile (fun c => c = '0'))

/-- Python `_product_alert` from src/alerts.py: four-tier alert over total coverage
days; `none` models a NaN input. -/
def productAlert (days : Option ℚ) : String :=
  match days with
  | none => ""
  | some d =>
    if d < 7 then "RED"
    else if d < 21 then "ORANGE"
    else if d < 60 then "YELLOW"
    else "GREEN"

/-- Python `_cust_alert` from src/alerts.py. -/
def custAlert (days : Option ℚ) : String :=
  match days with
  | none => ""
  | some d =>
    if d < 5 then "RED"
    else if d < 10 then "ORANGE"
    else if d < 20 then "YELLOW"
    else "GREEN"

/-- One row of the table passed to `add_alerts`: the item number, the two
coverage columns the classifiers read, and `rest` standing for every other
column of the row (untouched by `add_alerts`). -/
structure AlertIn where
  itemNo : String
  totalCoverageDays : Option ℚ
  custStockDays : Option ℚ
  rest : String
deriving DecidableEq

/-- One row of the output of `add_alerts`: the input row plus the two new
alert columns. -/
structure AlertOut where
  row : AlertIn
  product_alert : String
  cust_alert : String
deriving DecidableEq

/-- Row-level translation of `add_alerts` (src/alerts.py): compute both
alert columns, then blank the customer alert of excluded items. -/
def addAlertsRow (r : AlertIn) : AlertOut :=
  let pa := productAlert r.totalCoverageDays
  let ca := custAlert r.custStockDays
  let ca := if digitsOnly r.itemNo ∈ CUST_ALERT_EXCLUDE_ITEMNOS then "" else ca
  ⟨r, pa, ca⟩

/-- Python `add_alerts` over a whole table. -/
def addAlerts (rows : List AlertIn) : List AlertOut := rows.map addAlertsRow

/-! Part: src/metrics.py -/

/-- One input row of `compute_metrics_qty_based`: the named source columns. -/
structure MetricsIn where
  monthly_demand : Option ℚ
  mpi_qty : Option ℚ
  cust_qty : Option ℚ
  total_qty : Option ℚ
  mpi_days : Option ℚ
  cust_days : Option ℚ
deriving DecidableEq

/-- One output row of `compute_metrics_qty_based`: the input row plus the
canonical metric columns. -/
structure MetricsOut where
  row : MetricsIn
  monthlyDemand : ℤ
  dailyDemand : ℤ
  mpiStockQty : ℤ
  custStockQty : ℤ
  stock : ℤ
  mpiStockDays : ℚ
  custStockDays : ℚ
  totalCoverageDays : ℚ
  totalCoverageMonth : ℚ
deriving DecidableEq

/-- Row-level translation of `compute_metrics_qty_based` (src/metrics.py). -/
def computeMetricsRow (working_days : ℤ) (r : MetricsIn) : MetricsOut :=
  let monthly := roundHalfEven (numOr0 r.monthly_demand)
  let daily := roundHalfEven ((monthly : ℚ) / (working_days : ℚ))
  let mpiQ := roundHalfEven (numOr0 r.mpi_qty)
  let custQ := roundHalfEven (numOr0 r.cust_qty)
  let stock := roundHalfEven (numOr0 r.total_qty)
  let mpiD := round1 (numOr0 r.mpi_days)
  let custD := round1 (numOr0 r.cust_days)
  let total := round1 (mpiD + custD)
  let totalM := round1 (total / (working_days : ℚ))
  ⟨r, monthly, daily, mpiQ, custQ, stock, mpiD, custD, total, totalM⟩

/-- Python `compute_metrics_qty_based` over a whole table. -/
def computeMetrics (working_days : ℤ) (rows : List MetricsIn) : List MetricsOut :=
  rows.map (computeMetricsRow working_days)

/-! Part: src/planning.py -/

/-- One input row of `add_planning_columns`. -/
structure PlanningIn where
  plan_qty_input : Option ℚ
  plan_months_input : Option ℚ
  monthly_demand : ℚ
  total_coverage_days : Option ℚ
deriving DecidableEq

/-- One output row of `add_planning_columns`. Dates are modelled as integer
day numbers (`start_date` and `end_date = start_date + coverage days`). -/
structure PlanningOut where
  row : PlanningIn
  months_covered_by_plan_qty : ℚ
  qty_needed_for_plan_months : ℤ
  start_date : ℤ
  end_date : ℤ
deriving DecidableEq

/-- Row-level translation of `add_planning_columns` (src/planning.py).
`plan_qty / monthly_demand` with a NaN operand or a zero divisor gives
NaN/±inf in pandas, which the source replaces by 0. -/
def addPlanningRow (start_date : ℤ) (r : PlanningIn) : PlanningOut :=
  let mc := match r.plan_qty_input with
    | none => 0
    | some q => if r.monthly_demand = 0 then 0 else round1 (q / r.monthly_demand)
  let qn := match r.plan_months_input with
    | none => 0
    | some m => roundHalfEven (m * r.monthly_demand)
  let days := match r.total_coverage_days with
    | none => 0
    | some d => roundHalfEven d
  ⟨r, mc, qn, start_date, start_date + days⟩

/-- Python `add_planning_columns` over a whole table. -/
def addPlanning (start_date : ℤ) (rows : List PlanningIn) : List PlanningOut :=
  rows.map (addPlanningRow start_date)

/-! Part: src/machine_plan.py -/

/-- The five demand buckets of `_classify_by_percentiles`. -/
inductive DemandClass
  | VERY_HIGH
  | HIGH
  | MEDIUM
  | LOW
  | VERY_LOW
deriving DecidableEq

/-- pandas `Series.quantile(p)` with the default linear interpolation:
sort the values, set `h = p*(n-1)`, and interpolate between the values at
positions `⌊h⌋` and `⌊h⌋+1`. -/
def quantile (l : List ℚ) (p : ℚ) : ℚ :=
  let s := List.insertionSort (· ≤ ·) l
  let n := s.length
  let h := p * ((n : ℚ) - 1)
  let i := (⌊h⌋).toNat
  let lo := s.getD i 0
  let hi := s.getD (i + 1) lo
  lo + (h - (i : ℚ)) * (hi - lo)

/-- The classification function `cls` inside `_classify_by_percentiles`. -/
def clsOf (p90 p70 p40 p15 : ℚ) (v : ℚ) : DemandClass :=
  if p90 ≤ v then .VERY_HIGH
  else if p70 ≤ v then .HIGH
  else if p40 ≤ v then .MEDIUM
  else if p15 ≤ v then .LOW
  else .VERY_LOW

/-- Python `_classify_by_percentiles` (src/machine_plan.py): percentile cut points
are computed over the strictly positive parsed demand values only; every
value (zeros included) is then classified; with no positive value at all,
every row is VERY_LOW. -/
def classifyByPercentiles (monthly : List (Option ℚ)) : List DemandClass :=
  let s := monthly.map numOr0
  let nz := s.filter (fun v => 0 < v)
  if nz.length = 0 then s.map (fun _ => DemandClass.VERY_LOW)
  else
    let p90 := quantile nz (9/10)
    let p70 := quantile nz (7/10)
    let p40 := quantile nz (4/10)
    let p15 := quantile nz (15/100)
    s.map (clsOf p90 p70 p40 p15)

/-- One input row of `build_production_plan`: the columns the builder reads.
`target_months_input`/`safety_days_input` are `none` when the override
column is absent or the cell does not parse (both cases use the auto value
in the source). -/
structure MasterRow where
  itemNo : String
  machineSpec : String
  monthly_demand : Option ℚ
  daily_demand : Option ℚ
  coverage_days : Option ℚ
  product_alert : String
  target_months_input : Option ℚ
  safety_days_input : Option ℚ
deriving DecidableEq

/-- Configuration bag of `build_production_plan`; the per-class maps are
partial (`none` models a class key absent from the Python dict). -/
structure PlanConfig where
  working_days : ℤ
  target_months_map : DemandClass → Option ℚ
  safety_days_map : DemandClass → Option ℚ
  min_batch_months_map : DemandClass → Option ℚ
  batch_round_to : ℤ

/-- Default `target_months_map` of `build_production_plan`. -/
def defaultTargetMonthsMap : DemandClass → Option ℚ
  | .VERY_HIGH => some 3
  | .HIGH => some 4
  | .MEDIUM => some 6
  | .LOW => some 9
  | .VERY_LOW => some 12

/-- Default `safety_days_map` of `build_production_plan`. -/
def defaultSafetyDaysMap : DemandClass → Option ℚ
  | .VERY_HIGH => some 14
  | .HIGH => some 10
  | .MEDIUM => some 7
  | .LOW => some 5
  | .VERY_LOW => some 3

/-- Default `min_batch_months_map` of `build_production_plan`. -/
def defaultMinBatchMonthsMap : DemandClass → Option ℚ
  | .LOW => some 4
  | .VERY_LOW => some 6
  | _ => none

/-- Python `str.split("-")` on a character list: split at every hyphen,
keeping empty pieces (so the empty string yields one empty piece). -/
def splitDash : List Char → List (List Char)
  | [] => [[]]
  | c :: rest =>
    let r := splitDash rest
    if c = '-' then [] :: r
    else
      match r with
      | [] => [[c]]
      | h :: t => (c :: h) :: t

/-- Python `str.strip()`: drop whitespace from both ends. -/
def stripChars (cs : List Char) : List Char :=
  ((cs.dropWhile Char.isWhitespace).reverse.dropWhile Char.isWhitespace).reverse

/-- Step 1 of `build_production_plan`: split the machine spec on hyphens,
strip each token, and replace "nan"/"None"/empty tokens by UNSPECIFIED. -/
def machineTokens (spec : String) : List String :=
  ((splitDash spec.toList).map (fun cs => String.mk (stripChars cs))).map
    (fun t => if t = "nan" ∨ t = "None" ∨ t = "" then "UNSPECIFIED" else t)

/-- Python `df.explode("Machine")`: one output row per machine token. -/
def explodeMachines (master : List MasterRow) : List (MasterRow × String) :=
  master.flatMap (fun r => (machineTokens r.machineSpec).map (fun m => (r, m)))

/-- Target months resolution: the auto per-class value (6 when the class is
not in the map), overridden by a parsed, strictly positive input cell. -/
def resolveTargetMonths (cfg : PlanConfig) (cls : DemandClass) (input : Option ℚ) : ℚ :=
  let auto := (cfg.target_months_map cls).getD 6
  match input with
  | some v => if 0 < v then v else auto
  | none => auto

/-- Safety days resolution: auto value (5 when absent), overridden by a
parsed, non-negative input cell. -/
def resolveSafetyDays (cfg : PlanConfig) (cls : DemandClass) (input : Option ℚ) : ℚ :=
  let auto := (cfg.safety_days_map cls).getD 5
  match input with
  | some v => if 0 ≤ v then v else auto
  | none => auto

/-- Python `_AlertPriority`: `{"RED": 0, "ORANGE": 1, "YELLOW": 2, "GREEN": 3}`
with `.fillna(9)` for any other alert value. -/
def alertPriority (a : String) : ℤ :=
  if a = "RED" then 0
  else if a = "ORANGE" then 1
  else if a = "YELLOW" then 2
  else if a = "GREEN" then 3
  else 9

/-- One plan row before ranking: the master row it came from, its machine
token, and the computed plan columns (steps 2-4 of the source). -/
structure PlanBase where
  item : MasterRow
  machine : String
  demand_class : DemandClass
  target_months_final : ℚ
  safety_days_final : ℚ
  target_coverage_days : ℚ
  plan_coverage_days : ℚ
  gap_days : ℚ
  proposed_qty : ℤ
deriving DecidableEq

/-- Steps 3-4 of `build_production_plan` for one exploded row: resolve
targets, compute coverage/gap (each intermediate rounded to one decimal as
pandas `.round(1)` does), take the ceiling for the proposed quantity, and
round it up to the batch size when batch rounding is enabled. -/
def computeBase (cfg : PlanConfig) (r : MasterRow) (machine : String)
    (cls : DemandClass) : PlanBase :=
  let wd : ℚ := (cfg.working_days : ℚ)
  let tm := resolveTargetMonths cfg cls r.target_months_input
  let sd := resolveSafetyDays cfg cls r.safety_days_input
  let cov := numOr0 r.coverage_days
  let daily := numOr0 r.daily_demand
  let tcd := round1 (tm * wd)
  let pcd0 := round1 (tcd + sd)
  let minMonths := (cfg.min_batch_months_map cls).getD 0
  let minPlan := round1 (minMonths * wd)
  let pcd := round1 (max pcd0 minPlan)
  let gap := round1 (max 0 (pcd - cov))
  let q0 := ⌈max 0 (gap * daily)⌉
  let q :=
    if 0 < cfg.batch_round_to then
      if 0 < q0 then ⌈(q0 : ℚ) / (cfg.batch_round_to : ℚ)⌉ * cfg.batch_round_to else 0
    else q0
  ⟨r, machine, cls, tm, sd, tcd, pcd, gap, q⟩

/-- The within-machine part of the step-5 sort key: alert priority
ascending, gap days descending, proposed qty descending, monthly demand
descending (descending keys are negated). -/
def groupKey (b : PlanBase) : Lex (ℤ × Lex (ℚ × Lex (ℤ × ℚ))) :=
  toLex (alertPriority b.item.product_alert,
    toLex (-b.gap_days, toLex (-b.proposed_qty, -(numOr0 b.item.monthly_demand))))

/-- The full sort key of step 5: machine ascending first, then the
within-machine key. -/
def planKey (b : PlanBase) : Lex (String × Lex (ℤ × Lex (ℚ × Lex (ℤ × ℚ)))) :=
  toLex (b.machine, groupKey b)

/-- The sort relation used by `df.sort_values` in step 5. -/
def planLE (a b : PlanBase) : Prop := planKey a ≤ planKey b

instance : DecidableRel planLE :=
  fun a b => (inferInstance : Decidable (planKey a ≤ planKey b))

instance : IsTotal PlanBase planLE := ⟨fun a b => le_total (planKey a) (planKey b)⟩

instance : IsTrans PlanBase planLE := ⟨fun _ _ _ h h' => le_trans h h'⟩

/-- A ranked plan row: `df["Production Rank"] = df.groupby("Machine").cumcount() + 1`. -/
structure PlanRow where
  base : PlanBase
  production_rank : ℕ
deriving DecidableEq

/-- Python `groupby("Machine").cumcount() + 1` over the sorted rows: each row's
rank is one plus the number of earlier rows with the same machine. -/
def addRanks (seen : List String) : List PlanBase → List PlanRow
  | [] => []
  | b :: rest => ⟨b, seen.count b.machine + 1⟩ :: addRanks (b.machine :: seen) rest

/-- Python `build_production_plan` (src/machine_plan.py): explode machines,
classify demand over the exploded rows, compute the plan columns, sort by
the step-5 key, and assign per-machine ranks. -/
def buildProductionPlan (cfg : PlanConfig) (master : List MasterRow) : List PlanRow :=
  let exploded := explodeMachines master
  let classes := classifyByPercentiles (exploded.map (fun p => p.1.monthly_demand))
  let bases := (exploded.zip classes).map (fun pc => computeBase cfg pc.1.1 pc.1.2 pc.2)
  let sorted := List.insertionSort planLE bases
  addRanks [] sorted

/-! Part: src/report_export.py -/

/-- One row of the table `build_report_tables` sorts for its critical and
priority extracts (the merged `top_source` table, numeric columns already
coerced). -/
structure ReportRow where
  itemNo : String
  item_alert : String
  coverage_days : ℚ
  gap_days : ℚ
  proposed_qty : ℚ
  monthly_demand : ℚ
deriving DecidableEq

/-- Python `str.upper()` on a character list. -/
def upperChars (cs : List Char) : List Char := cs.map Char.toUpper

/-- Does the second list start with the first? -/
def beginsWith : List Char → List Char → Bool
  | [], _ => true
  | _ :: _, [] => false
  | p :: ps, c :: cs => p == c && beginsWith ps cs

/-- Python `pat in s` substring test. -/
def hasSub (pat : List Char) : List Char → Bool
  | [] => pat.isEmpty
  | c :: rest => beginsWith pat (c :: rest) || hasSub pat rest

/-- Python `_alert_norm` from src/report_export.py: strip, uppercase, then match
RED/ORANGE/GREEN as substrings, else pass the string through. -/
def alertNorm (x : String) : String :=
  let s := String.mk (upperChars (stripChars x.toList))
  if hasSub ("RED".toList) s.toList then "RED"
  else if hasSub ("ORANGE".toList) s.toList then "ORANGE"
  else if hasSub ("GREEN".toList) s.toList then "GREEN"
  else s

/-- Python `__alert_rank` of the Top-10 extract: `{"RED": 0, "ORANGE": 1}` with
`.fillna(9)`. -/
def critRank (a : String) : ℚ :=
  if a = "RED" then 0 else if a = "ORANGE" then 1 else 9

/-- Sort key of the Top-10 extract: alert rank ascending, gap days
descending, total coverage days ascending. -/
def critKey (r : ReportRow) : Lex (ℚ × Lex (ℚ × ℚ)) :=
  toLex (critRank r.item_alert, toLex (-r.gap_days, r.coverage_days))

def critLE (a b : ReportRow) : Prop := critKey a ≤ critKey b

instance : DecidableRel critLE :=
  fun a b => (inferInstance : Decidable (critKey a ≤ critKey b))

instance : IsTotal ReportRow critLE := ⟨fun a b => le_total (critKey a) (critKey b)⟩

instance : IsTrans ReportRow critLE := ⟨fun _ _ _ h h' => le_trans h h'⟩

/-- Python `__alert_rank` of the Production Priority extract:
`{"RED": 0, "ORANGE": 1, "GREEN": 2}` with `.fillna(9)`. -/
def prioRank (a : String) : ℚ :=
  if a = "RED" then 0 else if a = "ORANGE" then 1 else if a = "GREEN" then 2 else 9

/-- Sort key of the Production Priority extract. -/
def prioKey (r : ReportRow) : Lex (ℚ × Lex (ℚ × ℚ)) :=
  toLex (prioRank r.item_alert, toLex (-r.gap_days, r.coverage_days))

def prioLE (a b : ReportRow) : Prop := prioKey a ≤ prioKey b

instance : DecidableRel prioLE :=
  fun a b => (inferInstance : Decidable (prioKey a ≤ prioKey b))

instance : IsTotal ReportRow prioLE := ⟨fun a b => le_total (prioKey a) (prioKey b)⟩

instance : IsTrans ReportRow prioLE := ⟨fun _ _ _ h h' => le_trans h h'⟩

/-- The alert normalisation `build_report_tables` applies to the master
table before building its extracts. -/
def normalizeAlerts (rows : List ReportRow) : List ReportRow :=
  rows.map (fun r => { r with item_alert := alertNorm r.item_alert })

/-- The Top 10 Critical extract: keep RED/ORANGE rows, sort by `critKey`,
truncate to the first 10. -/
def top10Critical (master : List ReportRow) : List ReportRow :=
  let m := normalizeAlerts master
  let critical := m.filter (fun r => r.item_alert == "RED" || r.item_alert == "ORANGE")
  (List.insertionSort critLE critical).take 10

/-- The Production Priority extract: all rows sorted by `prioKey`
(`build_report_tables` applies no truncation; only the PDF renderer later
takes the first 30 of this table). -/
def productionPriority (master : List ReportRow) : List ReportRow :=
  List.insertionSort prioLE (normalizeAlerts master)

/-- Modelled from the claim's words, for comparison only: the plan
builder's ranking key (alert priority ascending, gap days descending,
proposed qty descending, monthly demand descending) applied to report
rows. This is not a translation of the source. -/
def claimReportKey (r : ReportRow) : Lex (ℚ × Lex (ℚ × Lex (ℚ × ℚ))) :=
  toLex (critRank r.item_alert,
    toLex (-r.gap_days, toLex (-r.proposed_qty, -r.monthly_demand)))

/-- The claimed report ordering relation. -/
def claimReportLE (a b : ReportRow) : Prop := claimReportKey a ≤ claimReportKey b

instance : DecidableRel claimReportLE :=
  fun a b => (inferInstance : Decidable (claimReportKey a ≤ claimReportKey b))

/-! Part: src/production_plan_export.py -/

/-- Python `_digits_key` from src/production_plan_export.py: digits only, leading
zeros stripped; `none` models a `None` cell. -/
def digitsKey (x : Option String) : String :=
  match x with
  | none => ""
  | some s => String.mk ((s.toList.filter Char.isDigit).dropWhile (fun c => c = '0'))

/-- One data row of the "Clinet Orders" template sheet: the item-number
cell and the quantity cell. -/
structure TemplateRow where
  item_cell : Option String
  qty_cell : Option ℚ
deriving DecidableEq

/-- Python `dict(zip(keys, qtys))` built from the plan columns after key
normalisation and numeric coercion: lookup returns the value of the LAST
plan row whose normalised key matches (later dict insertions overwrite
earlier ones). -/
def qtyMap (plan : List (String × Option ℚ)) (k : String) : Option ℚ :=
  (((plan.map (fun p => (digitsKey (some p.1), numOr0 p.2))).reverse.find?
    (fun p => p.1 == k)).map (fun p => p.2))

/-- Result of `fill_qty_in_client_orders`: the updated rows, the filled
count, the unmatched count, and the unmatched keys in sheet order. -/
structure FillResult where
  rows : List TemplateRow
  filled : ℕ
  not_matched : ℕ
  unmatched : List String
deriving DecidableEq

/-- The fill loop of `fill_qty_in_client_orders`: rows with an empty key
are skipped; a matched key writes the mapped quantity (even zero); an
unmatched key is counted and recorded. -/
def fillQtyGo (qm : String → Option ℚ) : List TemplateRow → FillResult
  | [] => ⟨[], 0, 0, []⟩
  | r :: rest =>
    let res := fillQtyGo qm rest
    let key := digitsKey r.item_cell
    if key = "" then ⟨r :: res.rows, res.filled, res.not_matched, res.unmatched⟩
    else
      match qm key with
      | some q => ⟨{ r with qty_cell := some q } :: res.rows, res.filled + 1,
          res.not_matched, res.unmatched⟩
      | none => ⟨r :: res.rows, res.filled, res.not_matched + 1, key :: res.unmatched⟩

/-- Python `fill_qty_in_client_orders` (src/production_plan_export.py) on the data
rows of the template sheet. -/
def fillQtyInClientOrders (plan : List (String × Option ℚ))
    (template : List TemplateRow) : FillResult :=
  fillQtyGo (qtyMap plan) template

/-! Part: Heap model for the copy-then-mutate discipline (C9) -/

/-- A heap of dataframes of type `T` with a fresh-reference counter. -/
structure Heap (T : Type) where
  mem : ℕ → T
  fresh : ℕ

def hread {T : Type} (s : Heap T) (r : ℕ) : T := s.mem r

def hwrite {T : Type} (s : Heap T) (r : ℕ) (t : T) : Heap T :=
  ⟨Function.update s.mem r t, s.fresh⟩

/-- Allocate a new dataframe (`df.copy()`, or a frame returned by
`explode`/`sort_values`). -/
def halloc {T : Type} (s : Heap T) (t : T) : Heap T × ℕ :=
  (⟨Function.update s.mem s.fresh t, s.fresh + 1⟩, s.fresh)

/-- A metrics dataframe before or after `compute_metrics_qty_based` ran. -/
def MetricsTable : Type := List MetricsIn ⊕ List MetricsOut

/-- The column assignments of `compute_metrics_qty_based`, all of which
target `out`. -/
def metricsWrites (working_days : ℤ) : MetricsTable → MetricsTable
  | Sum.inl rs => Sum.inr (rs.map (computeMetricsRow working_days))
  | Sum.inr rs => Sum.inr rs

/-- Python `compute_metrics_qty_based` as a heap program:
`out = df.copy()` then column writes on `out`; returns `out`. -/
def computeMetricsProg (working_days : ℤ) (s : Heap MetricsTable) (df : ℕ) :
    Heap MetricsTable × ℕ :=
  let p := halloc s (hread s df)
  (hwrite p.1 p.2 (metricsWrites working_days (hread p.1 p.2)), p.2)

/-- An alerts dataframe before or after `add_alerts` ran. -/
def AlertTable : Type := List AlertIn ⊕ List AlertOut

def alertWrites : AlertTable → AlertTable
  | Sum.inl rs => Sum.inr (addAlerts rs)
  | Sum.inr rs => Sum.inr rs

/-- Python `add_alerts` as a heap program: `out = df.copy()` then the alert-column
writes (including the exclusion blanking) on `out`. -/
def addAlertsProg (s : Heap AlertTable) (df : ℕ) : Heap AlertTable × ℕ :=
  let p := halloc s (hread s df)
  (hwrite p.1 p.2 (alertWrites (hread p.1 p.2)), p.2)

/-- A planning dataframe before or after `add_planning_columns` ran. -/
def PlanningTable : Type := List PlanningIn ⊕ List PlanningOut

def planningWrites (start_date : ℤ) : PlanningTable → PlanningTable
  | Sum.inl rs => Sum.inr (addPlanning start_date rs)
  | Sum.inr rs => Sum.inr rs

/-- Python `add_planning_columns` as a heap program. -/
def addPlanningProg (start_date : ℤ) (s : Heap PlanningTable) (df : ℕ) :
    Heap PlanningTable × ℕ :=
  let p := halloc s (hread s df)
  (hwrite p.1 p.2 (planningWrites start_date (hread p.1 p.2)), p.2)

/-- A master dataframe or a built plan. -/
def PlanTable : Type := List MasterRow ⊕ List PlanRow

def planWrites (cfg : PlanConfig) : PlanTable → PlanTable
  | Sum.inl rs => Sum.inr (buildProductionPlan cfg rs)
  | Sum.inr rs => Sum.inr rs

/-- Python `build_production_plan` as a heap program: `df = master.copy()` with its
column writes, then `df = df.explode(...)`/`df = df.sort_values(...)` rebind
`df` to freshly allocated frames holding the final plan. -/
def buildPlanProg (cfg : PlanConfig) (s : Heap PlanTable) (master : ℕ) :
    Heap PlanTable × ℕ :=
  let p1 := halloc s (hread s master)
  let p2 := halloc p1.1 (planWrites cfg (hread p1.1 p1.2))
  (p2.1, p2.2)

/-! Part: Example data shared by witnesses and counterexamples -/

/-- Shared example configuration: the source defaults with working days 26
and batch rounding 1000. -/
def exCfg : PlanConfig :=
  ⟨26, defaultTargetMonthsMap, defaultSafetyDaysMap, defaultMinBatchMonthsMap, 1000⟩

/-- Shared example master row (the end-to-end scenario of the spec). -/
def exRow : MasterRow :=
  ⟨"100", "M1", some 2600, some 100, some 10, "RED", none, none⟩

/-- The plan row the builder produces for `exRow` under `exCfg`. -/
def exPlanRow : PlanRow :=
  ⟨⟨exRow, "M1", DemandClass.VERY_HIGH, 3, 14, 78, 92, 82, 9000⟩, 1⟩

/-- Configuration for the C1 counterexample: defaults, batch rounding off. -/
def cexCfg : PlanConfig :=
  ⟨26, defaultTargetMonthsMap, defaultSafetyDaysMap, defaultMinBatchMonthsMap, 0⟩

/-- Master row for the C1 counterexample: a valid target-months override of
0.01 months makes `0.01 × 26 = 0.26` round to 0.3. -/
def cexRow : MasterRow :=
  ⟨"1", "M1", some 26, some 1, some 0, "RED", some (1/100), some 0⟩

/-- Shared example demand column for the classifier. -/
def exDemands : List (Option ℚ) := [some 10, some 0, none]

/-- Metrics row with a negative MPI stock-days cell. -/
def cexMetricsRow : MetricsIn := ⟨some 0, some 0, some 0, some 0, some (-1), some 0⟩

/-- Well-behaved metrics row for the C5 witness. -/
def exMetricsRow : MetricsIn := ⟨some 100, some 1, some 2, some 3, some 5, some 7⟩

/-- Report row A for the C6 counterexample: RED, large coverage, large
proposed quantity. -/
def cexReportA : ReportRow := ⟨"A", "RED", 50, 10, 100, 100⟩

/-- Report row B for the C6 counterexample: RED, same gap, small coverage,
small proposed quantity. -/
def cexReportB : ReportRow := ⟨"B", "RED", 1, 10, 5, 5⟩

/-- Excluded item (normalises to "1002010105") with zero customer stock. -/
def exAlertRow : AlertIn := ⟨"001002010105", some 3, some 0, "other columns"⟩

/-- Example plan column pair for the template-fill claims. -/
def exPlan : List (String × Option ℚ) := [("123", some 5)]

/-- Example template data row. -/
def exTemplateRow : TemplateRow := ⟨some ("123"), none⟩

/-- One-reference heaps holding an empty input table at reference 0. -/
def exHeapM : Heap MetricsTable := ⟨fun _ => Sum.inl [], 1⟩

def exHeapA : Heap AlertTable := ⟨fun _ => Sum.inl [], 1⟩

def exHeapP : Heap PlanningTable := ⟨fun _ => Sum.inl [], 1⟩

def exHeapB : Heap PlanTable := ⟨fun _ => Sum.inl [], 1⟩

/-- The per-row arithmetic chain of the plan builder, as the spec states it
but with the one-decimal rounding the source applies at each step, and with
batch rounding characterised as the least multiple of the batch size at or
above the unrounded ceiling. -/
def planRowArithmeticChain (cfg : PlanConfig) (b : PlanBase) : Prop :=
  let wd : ℚ := (cfg.working_days : ℚ)
  let q0 := ⌈max 0 (b.gap_days * numOr0 b.item.daily_demand)⌉
  b.target_coverage_days = round1 (b.target_months_final * wd)
  ∧ b.plan_coverage_days =
      round1 (max (round1 (b.target_coverage_days + b.safety_days_final))
        (round1 (((cfg.min_batch_months_map b.demand_class).getD 0) * wd)))
  ∧ b.gap_days = round1 (max 0 (b.plan_coverage_days - numOr0 b.item.coverage_days))
  ∧ (cfg.batch_round_to ≤ 0 → b.proposed_qty = q0)
  ∧ (0 < cfg.batch_round_to → q0 = 0 → b.proposed_qty = 0)
  ∧ (0 < cfg.batch_round_to → 0 < q0 →
      cfg.batch_round_to ∣ b.proposed_qty ∧ q0 ≤ b.proposed_qty ∧
        ∀ mm : ℤ, cfg.batch_round_to ∣ mm → q0 ≤ mm → b.proposed_qty ≤ mm)

/-! Part: Arithmetic helper lemmas -/

theorem roundHalfEven_intCast (n : ℤ) : roundHalfEven (n : ℚ) = n := by
  unfold roundHalfEven
  simp only [Int.floor_intCast, sub_self]
  norm_num

theorem roundHalfEven_nonneg {x : ℚ} (hx : 0 ≤ x) : 0 ≤ roundHalfEven x := by
  have hf : (0 : ℤ) ≤ ⌊x⌋ := Int.floor_nonneg.mpr hx
  simp only [roundHalfEven]
  split_ifs <;> omega

theorem round1_div_ten (z : ℤ) : round1 ((z : ℚ) / 10) = (z : ℚ) / 10 := by
  unfold round1
  have h : (10 : ℚ) * ((z : ℚ) / 10) = (z : ℚ) := by ring
  rw [h, roundHalfEven_intCast]

theorem round1_add_round1 (a b : ℚ) :
    round1 (round1 a + round1 b) = round1 a + round1 b := by
  have h : round1 a + round1 b
      = ((roundHalfEven (10 * a) + roundHalfEven (10 * b) : ℤ) : ℚ) / 10 := by
    unfold round1
    push_cast
    ring
  rw [h, round1_div_ten]

/-- Evaluation form of the ceiling (`norm_num` evaluates floors). -/
theorem ceil_as_floor (x : ℚ) : ⌈x⌉ = -⌊-x⌋ := by
  rw [Int.floor_neg, neg_neg]

theorem round1_nonneg {x : ℚ} (hx : 0 ≤ x) : 0 ≤ round1 x := by
  unfold round1
  have h1 : (0 : ℤ) ≤ roundHalfEven (10 * x) := roundHalfEven_nonneg (by positivity)
  have h2 : (0 : ℚ) ≤ (roundHalfEven (10 * x) : ℚ) := by exact_mod_cast h1
  positivity

/-- Python `⌈q/b⌉ * b` is the least multiple of `b` that is at least `q`
(for a positive batch size `b`). -/
theorem ceil_div_mul_spec (b q : ℤ) (hb : 0 < b) :
    b ∣ ⌈(q : ℚ) / (b : ℚ)⌉ * b ∧ q ≤ ⌈(q : ℚ) / (b : ℚ)⌉ * b ∧
      ∀ m : ℤ, b ∣ m → q ≤ m → ⌈(q : ℚ) / (b : ℚ)⌉ * b ≤ m := by
  have hbq : (0 : ℚ) < (b : ℚ) := by exact_mod_cast hb
  refine ⟨dvd_mul_left b _, ?_, ?_⟩
  · have h1 : (q : ℚ) / (b : ℚ) ≤ (⌈(q : ℚ) / (b : ℚ)⌉ : ℚ) := Int.le_ceil _
    have h2 : (q : ℚ) ≤ (⌈(q : ℚ) / (b : ℚ)⌉ : ℚ) * (b : ℚ) := (div_le_iff₀ hbq).mp h1
    exact_mod_cast h2
  · intro m hdvd hqm
    obtain ⟨k, hk⟩ := hdvd
    have h0 : q ≤ k * b := by
      rw [hk, mul_comm b k] at hqm
      exact hqm
    have h1 : (q : ℚ) ≤ (k : ℚ) * (b : ℚ) := by exact_mod_cast h0
    have h2 : (q : ℚ) / (b : ℚ) ≤ (k : ℚ) := (div_le_iff₀ hbq).mpr h1
    have h3 : ⌈(q : ℚ) / (b : ℚ)⌉ ≤ k := Int.ceil_le.mpr h2
    calc ⌈(q : ℚ) / (b : ℚ)⌉ * b ≤ k * b := by
          exact mul_le_mul_of_nonneg_right h3 (le_of_lt hb)
      _ = m := by rw [hk]; ring

/-! Part: Plan-builder helper lemmas -/

theorem addRanks_map_base :
    ∀ (l : List PlanBase) (seen : List String),
      (addRanks seen l).map (fun r => r.base) = l
  | [], _ => rfl
  | b :: rest, seen => by
    simp [addRanks, addRanks_map_base rest]

theorem mem_addRanks_base {r : PlanRow} {l : List PlanBase} {seen : List String}
    (hr : r ∈ addRanks seen l) : r.base ∈ l := by
  have h : r.base ∈ (addRanks seen l).map (fun r => r.base) :=
    List.mem_map_of_mem _ hr
  rwa [addRanks_map_base] at h

theorem addRanks_filter_ranks (m : String) :
    ∀ (l : List PlanBase) (seen : List String),
      ((addRanks seen l).filter (fun r => r.base.machine == m)).map
          (fun r => r.production_rank)
        = iotaFrom (seen.count m + 1)
            (((addRanks seen l).filter (fun r => r.base.machine == m)).length)
  | [], _ => rfl
  | b :: rest, seen => by
    have ih := addRanks_filter_ranks m rest (b.machine :: seen)
    by_cases hb : b.machine = m
    · subst hb
      have hc : (b.machine :: seen).count b.machine = seen.count b.machine + 1 := by
        simp [List.count_cons]
      rw [hc] at ih
      simp only [addRanks, List.filter_cons]
      rw [if_pos (by simp : ((b.machine == b.machine) = true))]
      simp only [List.map_cons, List.length_cons, iotaFrom]
      rw [ih]
    · have hc : (b.machine :: seen).count m = seen.count m := by
        simp [List.count_cons, hb]
      rw [hc] at ih
      simp only [addRanks, List.filter_cons]
      rw [if_neg (by simp [hb] : ¬ ((b.machine == m) = true))]
      exact ih

theorem planLE_same_machine {a b : PlanBase} (hm : a.machine = b.machine)
    (h : planLE a b) : groupKey a ≤ groupKey b := by
  unfold planLE planKey at h
  rcases (Prod.Lex.le_iff _ _).mp h with h1 | h2
  · exact absurd h1 (by simp [hm])
  · exact h2.2

theorem quantile_singleton (v : ℚ) (p : ℚ) : quantile [v] p = v := by
  simp [quantile]

theorem classify_singleton_pos (c : Option ℚ) (h : 0 < numOr0 c) :
    classifyByPercentiles [c] = [DemandClass.VERY_HIGH] := by
  have hd : (decide (0 < numOr0 c)) = true := decide_eq_true h
  simp only [classifyByPercentiles, List.map_cons, List.map_nil, List.filter, hd]
  rw [if_neg (by simp)]
  simp [quantile_singleton, clsOf]

/-- Evaluation of the whole builder on a one-row, one-machine master. -/
theorem buildProductionPlan_singleton (cfg : PlanConfig) (r : MasterRow) (m : String)
    (hm : machineTokens r.machineSpec = [m]) (hpos : 0 < numOr0 r.monthly_demand) :
    buildProductionPlan cfg [r] = [⟨computeBase cfg r m DemandClass.VERY_HIGH, 1⟩] := by
  simp only [buildProductionPlan, explodeMachines, List.flatMap_cons, List.flatMap_nil,
    List.append_nil, hm, List.map_cons, List.map_nil, List.zip_cons_cons, List.zip_nil_right,
    classify_singleton_pos r.monthly_demand hpos, List.insertionSort, List.orderedInsert,
    addRanks, List.count_nil]

theorem computeBase_chain (cfg : PlanConfig) (r : MasterRow) (machine : String)
    (cls : DemandClass) : planRowArithmeticChain cfg (computeBase cfg r machine cls) := by
  unfold planRowArithmeticChain computeBase
  refine ⟨rfl, rfl, rfl, ?_, ?_, ?_⟩
  · intro hb
    simp only [if_neg (not_lt.mpr hb)]
  · intro hb hq
    simp only [if_pos hb, hq, lt_irrefl, if_false]
  · intro hb hq
    simp only [if_pos hb, if_pos hq]
    exact ceil_div_mul_spec cfg.batch_round_to _ hb

/-- The sorted-and-ranked shape of the plan builder's final two steps, for
any list of computed plan rows. -/
theorem sortedRank_spec (l : List PlanBase) (m : String) :
    List.Pairwise (fun a b => groupKey a.base ≤ groupKey b.base)
      ((addRanks [] (List.insertionSort planLE l)).filter (fun r => r.base.machine == m))
    ∧ ((addRanks [] (List.insertionSort planLE l)).filter
          (fun r => r.base.machine == m)).map (fun r => r.production_rank)
      = iotaFrom 1
          ((addRanks [] (List.insertionSort planLE l)).filter
            (fun r => r.base.machine == m)).length := by
  constructor
  · have hs : List.Sorted planLE (List.insertionSort planLE l) :=
      List.sorted_insertionSort planLE l
    have hmap := addRanks_map_base (List.insertionSort planLE l) []
    have hp : List.Pairwise (fun a b : PlanRow => planLE a.base b.base)
        (addRanks [] (List.insertionSort planLE l)) := by
      rw [← hmap] at hs
      exact List.pairwise_map.mp hs
    have hf := hp.filter (fun r => r.base.machine == m)
    refine List.Pairwise.imp_of_mem ?_ hf
    intro a b ha hb hR
    have ham : a.base.machine = m := by simpa using (List.mem_filter.mp ha).2
    have hbm : b.base.machine = m := by simpa using (List.mem_filter.mp hb).2
    exact planLE_same_machine (ham.trans hbm.symm) hR
  · have h := addRanks_filter_ranks m (List.insertionSort planLE l) []
    simpa using h

/-! Part: Claim theorems -/

/-- C1 (amended): every output row of the production plan builder satisfies
the arithmetic chain of the source, in which every intermediate
(target coverage days, plan coverage days, gap days) is rounded to one
decimal place by pandas `.round(1)`; the proposed quantity is the ceiling
of gap days × daily demand (clamped at 0), and with batch rounding enabled
a positive ceiling is replaced by the smallest multiple of the batch size
at or above it while a zero ceiling stays zero. -/
theorem C1_plan_row_arithmetic (cfg : PlanConfig) (master : List MasterRow)
    (r : PlanRow) (hr : r ∈ buildProductionPlan cfg master) :
    planRowArithmeticChain cfg r.base := by
  simp only [buildProductionPlan] at hr
  have h1 := mem_addRanks_base hr
  have h2 := (List.perm_insertionSort planLE _).mem_iff.mp h1
  obtain ⟨pc, _, heq⟩ := List.mem_map.mp h2
  rw [← heq]
  exact computeBase_chain cfg pc.1.1 pc.1.2 pc.2

theorem exPlanRow_mem : exPlanRow ∈ buildProductionPlan exCfg [exRow] := by
  rw [buildProductionPlan_singleton exCfg exRow ("M1") (by decide)
    (by norm_num [numOr0, exRow])]
  simp only [List.mem_singleton]
  norm_num [exPlanRow, exRow, exCfg, computeBase, resolveTargetMonths, resolveSafetyDays,
    defaultTargetMonthsMap, defaultSafetyDaysMap, defaultMinBatchMonthsMap, numOr0,
    round1, roundHalfEven, ceil_as_floor]

theorem C1_plan_row_arithmetic_witness :
    exPlanRow ∈ buildProductionPlan exCfg [exRow]
    ∧ planRowArithmeticChain exCfg exPlanRow.base :=
  ⟨exPlanRow_mem, C1_plan_row_arithmetic exCfg [exRow] exPlanRow exPlanRow_mem⟩

/-- C1 counterexample: the builder outputs plan_coverage_days = 0.3 for
`cexRow`, while the claim's unrounded chain
max(target_months_final × working_days + safety_days_final,
min_batch_months × working_days) gives 0.26 — the claimed equality fails. -/
theorem C1_counterexample :
    ((buildProductionPlan cexCfg [cexRow]).map (fun r => r.base.plan_coverage_days)
      = [3/10])
    ∧ ((buildProductionPlan cexCfg [cexRow]).map (fun r =>
          max (r.base.target_months_final * (26 : ℚ) + r.base.safety_days_final)
            (((cexCfg.min_batch_months_map r.base.demand_class).getD 0) * (26 : ℚ)))
        = [13/50])
    ∧ (3/10 : ℚ) ≠ 13/50 := by
  have hb := buildProductionPlan_singleton cexCfg cexRow ("M1") (by decide)
    (by norm_num [numOr0, cexRow])
  refine ⟨?_, ?_, by norm_num⟩
  · rw [hb]
    norm_num [computeBase, cexRow, cexCfg, resolveTargetMonths, resolveSafetyDays,
      defaultMinBatchMonthsMap, numOr0, round1, roundHalfEven]
  · rw [hb]
    norm_num [computeBase, cexRow, cexCfg, resolveTargetMonths, resolveSafetyDays,
      defaultTargetMonthsMap, defaultSafetyDaysMap, defaultMinBatchMonthsMap, numOr0,
      round1, roundHalfEven]

/-- C2 (confirmed): within each machine group of the plan builder's output,
rows are ordered by alert priority ascending (RED 0, ORANGE 1, YELLOW 2,
GREEN 3, anything else 9), then gap days descending, proposed quantity
descending, monthly demand descending — `groupKey` is exactly that
lexicographic key — and Production Rank is 1, 2, 3, … in that order. -/
theorem C2_machine_group_ranking (cfg : PlanConfig) (master : List MasterRow)
    (m : String) :
    List.Pairwise (fun a b => groupKey a.base ≤ groupKey b.base)
      ((buildProductionPlan cfg master).filter (fun r => r.base.machine == m))
    ∧ ((buildProductionPlan cfg master).filter
          (fun r => r.base.machine == m)).map (fun r => r.production_rank)
      = iotaFrom 1
          ((buildProductionPlan cfg master).filter
            (fun r => r.base.machine == m)).length := by
  simp only [buildProductionPlan]
  exact sortedRank_spec _ m

/-- C3 (confirmed): the demand classifier computes its four percentile cut
points over the strictly positive parsed demand values only, classifies
every value (zeros included) against them, and makes every row VERY_LOW
when no value is strictly positive. -/
theorem C3_percentile_classifier (xs : List (Option ℚ)) :
    (classifyByPercentiles xs).length = xs.length
    ∧ ((xs.map numOr0).filter (fun v => 0 < v) = [] →
        classifyByPercentiles xs = xs.map (fun _ => DemandClass.VERY_LOW))
    ∧ ((xs.map numOr0).filter (fun v => 0 < v) ≠ [] →
        classifyByPercentiles xs = (xs.map numOr0).map (clsOf
          (quantile ((xs.map numOr0).filter (fun v => 0 < v)) (9/10))
          (quantile ((xs.map numOr0).filter (fun v => 0 < v)) (7/10))
          (quantile ((xs.map numOr0).filter (fun v => 0 < v)) (4/10))
          (quantile ((xs.map numOr0).filter (fun v => 0 < v)) (15/100)))) := by
  refine ⟨?_, ?_, ?_⟩
  · simp only [classifyByPercentiles]
    split_ifs <;> simp
  · intro h
    simp only [classifyByPercentiles]
    rw [if_pos (by rw [h]; rfl), List.map_map]
    rfl
  · intro h
    simp only [classifyByPercentiles]
    rw [if_neg (by simpa [List.length_eq_zero] using h)]

theorem exDemands_filter :
    (exDemands.map numOr0).filter (fun v => 0 < v) = [10] := by
  have h10 : (decide ((0:ℚ) < 10)) = true := decide_eq_true (by norm_num)
  have h0 : (decide ((0:ℚ) < 0)) = false := decide_eq_false (by norm_num)
  simp [exDemands, numOr0, List.filter, h10, h0]

theorem C3_percentile_classifier_witness :
    ((exDemands.map numOr0).filter (fun v => 0 < v) ≠ [])
    ∧ classifyByPercentiles exDemands = (exDemands.map numOr0).map (clsOf
        (quantile ((exDemands.map numOr0).filter (fun v => 0 < v)) (9/10))
        (quantile ((exDemands.map numOr0).filter (fun v => 0 < v)) (7/10))
        (quantile ((exDemands.map numOr0).filter (fun v => 0 < v)) (4/10))
        (quantile ((exDemands.map numOr0).filter (fun v => 0 < v)) (15/100)))
    ∧ classifyByPercentiles exDemands
      = [DemandClass.VERY_HIGH, DemandClass.VERY_LOW, DemandClass.VERY_LOW] := by
  have hne : (exDemands.map numOr0).filter (fun v => 0 < v) ≠ [] := by
    rw [exDemands_filter]
    simp
  have hcls := (C3_percentile_classifier exDemands).2.2 hne
  refine ⟨hne, hcls, ?_⟩
  rw [hcls, exDemands_filter, quantile_singleton, quantile_singleton,
    quantile_singleton, quantile_singleton]
  norm_num [exDemands, numOr0, clsOf]

/-- C5 (amended): total coverage days is exactly the sum of the two rounded
stock-day columns (the extra `.round(1)` is the identity on a sum of
one-decimal values), and it is non-negative whenever the two parsed inputs
are non-negative; a negative input cell propagates (see the
counterexample). -/
theorem C5_total_coverage (working_days : ℤ) (r : MetricsIn) :
    (computeMetricsRow working_days r).totalCoverageDays
      = (computeMetricsRow working_days r).mpiStockDays
        + (computeMetricsRow working_days r).custStockDays
    ∧ (0 ≤ numOr0 r.mpi_days → 0 ≤ numOr0 r.cust_days →
        0 ≤ (computeMetricsRow working_days r).totalCoverageDays) := by
  constructor
  · simp only [computeMetricsRow]
    exact round1_add_round1 _ _
  · intro h1 h2
    simp only [computeMetricsRow]
    exact round1_nonneg (add_nonneg (round1_nonneg h1) (round1_nonneg h2))

/-- C5 counterexample: a parseable negative input makes
`total_coverage_days` negative — the claimed invariant fails on it. -/
theorem C5_counterexample :
    (computeMetricsRow 26 cexMetricsRow).totalCoverageDays = -1
    ∧ ¬ (0 ≤ (computeMetricsRow 26 cexMetricsRow).totalCoverageDays) := by
  have h : (computeMetricsRow 26 cexMetricsRow).totalCoverageDays = -1 := by
    norm_num [computeMetricsRow, cexMetricsRow, numOr0, round1, roundHalfEven]
  exact ⟨h, by rw [h]; norm_num⟩

theorem C5_total_coverage_witness :
    (0 ≤ numOr0 exMetricsRow.mpi_days)
    ∧ (0 ≤ numOr0 exMetricsRow.cust_days)
    ∧ (computeMetricsRow 26 exMetricsRow).totalCoverageDays
        = (computeMetricsRow 26 exMetricsRow).mpiStockDays
          + (computeMetricsRow 26 exMetricsRow).custStockDays
    ∧ 0 ≤ (computeMetricsRow 26 exMetricsRow).totalCoverageDays
    ∧ (computeMetricsRow 26 exMetricsRow).totalCoverageDays = 12 :=
  ⟨by norm_num [numOr0, exMetricsRow],
   by norm_num [numOr0, exMetricsRow],
   (C5_total_coverage 26 exMetricsRow).1,
   (C5_total_coverage 26 exMetricsRow).2
     (by norm_num [numOr0, exMetricsRow]) (by norm_num [numOr0, exMetricsRow]),
   by norm_num [computeMetricsRow, exMetricsRow, numOr0, round1, roundHalfEven]⟩

/-- C6 (amended): the aggregator's Top 10 Critical extract keeps only
RED/ORANGE rows, sorts by alert rank ascending then gap days descending
then total coverage days ascending (`critKey`), and truncates to 10; the
Production Priority extract is the whole table sorted by `prioKey`
(RED 0, ORANGE 1, GREEN 2, other 9, then gap descending, coverage
ascending) with no truncation — only the PDF renderer later takes its
first 30 rows. -/
theorem C6_report_extracts (master : List ReportRow) :
    (top10Critical master).length ≤ 10
    ∧ List.Pairwise critLE (top10Critical master)
    ∧ (∀ r ∈ top10Critical master, r.item_alert = "RED" ∨ r.item_alert = "ORANGE")
    ∧ (productionPriority master).length = master.length
    ∧ List.Pairwise prioLE (productionPriority master) := by
  refine ⟨?_, ?_, ?_, ?_, ?_⟩
  · simp only [top10Critical]
    exact List.length_take_le _ _
  · simp only [top10Critical]
    exact List.Pairwise.sublist (List.take_sublist 10 _)
      (List.sorted_insertionSort critLE _)
  · intro r hr
    simp only [top10Critical] at hr
    have h1 := List.mem_of_mem_take hr
    have h2 := (List.perm_insertionSort critLE _).mem_iff.mp h1
    have h3 := List.of_mem_filter h2
    simpa using h3
  · simp only [productionPriority]
    rw [List.length_insertionSort]
    simp [normalizeAlerts]
  · exact List.sorted_insertionSort prioLE _

/-- Evaluation of the Top-10 extract on the two counterexample rows: the
source orders B (small coverage) before A (large proposed qty). -/
theorem top10_cex_eval :
    top10Critical [cexReportA, cexReportB] = [cexReportB, cexReportA] := by
  decide

/-- C6 counterexample: with two RED rows of equal gap days, the code puts
the lower-coverage row first even though the claimed ordering (proposed
qty descending) puts the higher-qty row first, so the output is not sorted
by the claimed key; and the Production Priority table of 31 rows keeps all
31 rows, contradicting the claimed truncation to 30. -/
theorem C6_counterexample :
    top10Critical [cexReportA, cexReportB] = [cexReportB, cexReportA]
    ∧ ¬ List.Pairwise claimReportLE (top10Critical [cexReportA, cexReportB])
    ∧ (productionPriority (List.replicate 31 cexReportA)).length = 31 := by
  refine ⟨top10_cex_eval, ?_, ?_⟩
  · rw [top10_cex_eval]
    intro hp
    have h := List.rel_of_pairwise_cons hp (List.mem_singleton_self _)
    have : ¬ claimReportLE cexReportB cexReportA := by decide
    exact this h
  · simp [productionPriority, List.length_insertionSort, normalizeAlerts]

theorem C6_report_extracts_witness :
    cexReportB ∈ top10Critical [cexReportA, cexReportB]
    ∧ (cexReportB.item_alert = "RED" ∨ cexReportB.item_alert = "ORANGE") :=
  have hm : cexReportB ∈ top10Critical [cexReportA, cexReportB] := by
    rw [top10_cex_eval]
    exact List.mem_cons_self _ _
  ⟨hm, (C6_report_extracts [cexReportA, cexReportB]).2.2.1 cexReportB hm⟩

/-- C4 (confirmed): the product alert partitions coverage days at 7/21/60
and the customer alert at 5/10/20, with strict less-than boundaries and the
empty string exactly for a NaN input. -/
theorem C4_alert_thresholds :
    productAlert none = "" ∧ custAlert none = ""
    ∧ ∀ d : ℚ,
      ((productAlert (some d) = "RED") ↔ d < 7)
      ∧ ((productAlert (some d) = "ORANGE") ↔ 7 ≤ d ∧ d < 21)
      ∧ ((productAlert (some d) = "YELLOW") ↔ 21 ≤ d ∧ d < 60)
      ∧ ((productAlert (some d) = "GREEN") ↔ 60 ≤ d)
      ∧ ((custAlert (some d) = "RED") ↔ d < 5)
      ∧ ((custAlert (some d) = "ORANGE") ↔ 5 ≤ d ∧ d < 10)
      ∧ ((custAlert (some d) = "YELLOW") ↔ 10 ≤ d ∧ d < 20)
      ∧ ((custAlert (some d) = "GREEN") ↔ 20 ≤ d) := by
  refine ⟨rfl, rfl, fun d => ?_⟩
  simp only [productAlert, custAlert]
  refine ⟨?_, ?_, ?_, ?_, ?_, ?_, ?_, ?_⟩ <;>
    · split_ifs <;> constructor <;> intro h <;> (try simp_all) <;> (try linarith)

/-- C7 (confirmed): an item whose digits-only, leading-zero-stripped number
is in the exclusion set gets a blank customer alert whatever its customer
stock days; its product alert is exactly the product classifier's value;
and the row's other fields are returned unchanged (for non-excluded items
the customer alert is the customer classifier's value). -/
theorem C7_customer_alert_exclusion (r : AlertIn) :
    (digitsOnly r.itemNo ∈ CUST_ALERT_EXCLUDE_ITEMNOS →
      (addAlertsRow r).cust_alert = "")
    ∧ (addAlertsRow r).product_alert = productAlert r.totalCoverageDays
    ∧ (addAlertsRow r).row = r
    ∧ (digitsOnly r.itemNo ∉ CUST_ALERT_EXCLUDE_ITEMNOS →
      (addAlertsRow r).cust_alert = custAlert r.custStockDays) := by
  refine ⟨?_, rfl, rfl, ?_⟩
  · intro h
    simp [addAlertsRow, h]
  · intro h
    simp [addAlertsRow, h]

theorem C7_customer_alert_exclusion_witness :
    digitsOnly exAlertRow.itemNo ∈ CUST_ALERT_EXCLUDE_ITEMNOS
    ∧ exAlertRow.custStockDays = some 0
    ∧ (addAlertsRow exAlertRow).cust_alert = ""
    ∧ (addAlertsRow exAlertRow).product_alert = productAlert exAlertRow.totalCoverageDays
    ∧ (addAlertsRow exAlertRow).row = exAlertRow :=
  have hmem : digitsOnly exAlertRow.itemNo ∈ CUST_ALERT_EXCLUDE_ITEMNOS := by decide
  ⟨hmem, rfl, (C7_customer_alert_exclusion exAlertRow).1 hmem,
    (C7_customer_alert_exclusion exAlertRow).2.1,
    (C7_customer_alert_exclusion exAlertRow).2.2.1⟩

/-- Full characterisation of the fill loop, by induction on the template
rows. -/
theorem fillQtyGo_spec (qm : String → Option ℚ) (l : List TemplateRow) :
    (fillQtyGo qm l).rows = l.map (fun r =>
        match qm (digitsKey r.item_cell) with
        | some q =>
          if digitsKey r.item_cell = "" then r else { r with qty_cell := some q }
        | none => r)
    ∧ (fillQtyGo qm l).filled
        = (l.filter (fun r =>
            digitsKey r.item_cell ≠ "" ∧ (qm (digitsKey r.item_cell)).isSome)).length
    ∧ (fillQtyGo qm l).not_matched
        = (l.filter (fun r =>
            digitsKey r.item_cell ≠ "" ∧ qm (digitsKey r.item_cell) = none)).length
    ∧ (fillQtyGo qm l).unmatched
        = (l.filter (fun r =>
            digitsKey r.item_cell ≠ "" ∧ qm (digitsKey r.item_cell) = none)).map
              (fun r => digitsKey r.item_cell) := by
  induction l with
  | nil => exact ⟨rfl, rfl, rfl, rfl⟩
  | cons r rest ih =>
    obtain ⟨ih1, ih2, ih3, ih4⟩ := ih
    by_cases hk : digitsKey r.item_cell = ""
    · simp [fillQtyGo, hk, ih1, ih2, ih3, ih4, List.filter_cons]
      cases qm ("") <;> rfl
    · cases hq : qm (digitsKey r.item_cell) with
      | some q => simp [fillQtyGo, hk, hq, ih1, ih2, ih3, ih4, List.filter_cons]
      | none => simp [fillQtyGo, hk, hq, ih1, ih2, ih3, ih4, List.filter_cons]

/-- C8 (confirmed): the template fill matches rows by the digits-only,
leading-zero-stripped key ("00123" and "123" both normalise to "123"),
writes the mapped quantity into every matched row (zero included), leaves
rows with an empty key untouched, and returns the filled count, the
unmatched count and the unmatched-key list; the final conjunct shows a
planned quantity of 0 being written. -/
theorem C8_template_fill (plan : List (String × Option ℚ))
    (template : List TemplateRow) :
    (fillQtyInClientOrders plan template).rows = template.map (fun r =>
        match qtyMap plan (digitsKey r.item_cell) with
        | some q =>
          if digitsKey r.item_cell = "" then r else { r with qty_cell := some q }
        | none => r)
    ∧ (fillQtyInClientOrders plan template).filled
        = (template.filter (fun r =>
            digitsKey r.item_cell ≠ "" ∧ (qtyMap plan (digitsKey r.item_cell)).isSome)).length
    ∧ (fillQtyInClientOrders plan template).not_matched
        = (template.filter (fun r =>
            digitsKey r.item_cell ≠ "" ∧ qtyMap plan (digitsKey r.item_cell) = none)).length
    ∧ (fillQtyInClientOrders plan template).unmatched
        = (template.filter (fun r =>
            digitsKey r.item_cell ≠ "" ∧ qtyMap plan (digitsKey r.item_cell) = none)).map
              (fun r => digitsKey r.item_cell)
    ∧ digitsKey (some ("00123")) = "123"
    ∧ digitsKey (some ("123")) = "123"
    ∧ fillQtyInClientOrders [("00123", some 0)] [⟨some ("123"), none⟩]
        = ⟨[⟨some ("123"), some 0⟩], 1, 0, []⟩ :=
  have h := fillQtyGo_spec (qtyMap plan) template
  ⟨h.1, h.2.1, h.2.2.1, h.2.2.2, by decide, by decide, by decide⟩

/-- C10 (confirmed): the quantity map built by `dict(zip(...))` takes, for
every key, the quantity of the LAST plan row whose normalised item number
is that key; appending a plan row overrides earlier rows with the same key
and leaves every other key's lookup unchanged. -/
theorem C10_last_row_wins (plan : List (String × Option ℚ)) (item : String)
    (qty : Option ℚ) (k : String) :
    qtyMap (plan ++ [(item, qty)]) (digitsKey (some item)) = some (numOr0 qty)
    ∧ (k ≠ digitsKey (some item) →
        qtyMap (plan ++ [(item, qty)]) k = qtyMap plan k) := by
  constructor
  · simp [qtyMap, List.map_append, List.reverse_append, List.find?]
  · intro hk
    have hne : (digitsKey (some item) == k) = false := by
      simp [Ne.symm hk]
    simp [qtyMap, List.map_append, List.reverse_append, List.find?, hne]

/-- C9 (confirmed): each of the four stages copies its argument
(`df.copy()`) and writes only to the copy (or, in the plan builder, to the
further frames returned by `explode`/`sort_values`), so the input table
read back after the call is unchanged, and the returned reference is a new
one, distinct from the input's. -/
theorem C9_input_tables_unchanged (working_days : ℤ) (cfg : PlanConfig)
    (start_date : ℤ) (s1 : Heap MetricsTable) (s2 : Heap AlertTable)
    (s3 : Heap PlanningTable) (s4 : Heap PlanTable) (d1 d2 d3 d4 : ℕ)
    (h1 : d1 < s1.fresh) (h2 : d2 < s2.fresh) (h3 : d3 < s3.fresh)
    (h4 : d4 < s4.fresh) :
    (hread (computeMetricsProg working_days s1 d1).1 d1 = hread s1 d1
      ∧ (computeMetricsProg working_days s1 d1).2 ≠ d1)
    ∧ (hread (addAlertsProg s2 d2).1 d2 = hread s2 d2
      ∧ (addAlertsProg s2 d2).2 ≠ d2)
    ∧ (hread (addPlanningProg start_date s3 d3).1 d3 = hread s3 d3
      ∧ (addPlanningProg start_date s3 d3).2 ≠ d3)
    ∧ (hread (buildPlanProg cfg s4 d4).1 d4 = hread s4 d4
      ∧ (buildPlanProg cfg s4 d4).2 ≠ d4) := by
  refine ⟨⟨?_, ?_⟩, ⟨?_, ?_⟩, ⟨?_, ?_⟩, ⟨?_, ?_⟩⟩
  · simp only [computeMetricsProg, halloc, hwrite, hread]
    rw [Function.update_noteq (by omega), Function.update_noteq (by omega)]
  · simp only [computeMetricsProg, halloc]
    omega
  · simp only [addAlertsProg, halloc, hwrite, hread]
    rw [Function.update_noteq (by omega), Function.update_noteq (by omega)]
  · simp only [addAlertsProg, halloc]
    omega
  · simp only [addPlanningProg, halloc, hwrite, hread]
    rw [Function.update_noteq (by omega), Function.update_noteq (by omega)]
  · simp only [addPlanningProg, halloc]
    omega
  · simp only [buildPlanProg, halloc, hread]
    rw [Function.update_noteq (by omega), Function.update_noteq (by omega)]
  · simp only [buildPlanProg, halloc]
    omega

theorem C9_input_tables_unchanged_witness :
    (0 < exHeapM.fresh ∧ 0 < exHeapA.fresh ∧ 0 < exHeapP.fresh ∧ 0 < exHeapB.fresh)
    ∧ hread (computeMetricsProg 26 exHeapM 0).1 0 = Sum.inl []
    ∧ hread (addAlertsProg exHeapA 0).1 0 = Sum.inl []
    ∧ hread (addPlanningProg 0 exHeapP 0).1 0 = Sum.inl []
    ∧ hread (buildPlanProg exCfg exHeapB 0).1 0 = Sum.inl [] :=
  have h := C9_input_tables_unchanged 26 exCfg 0 exHeapM exHeapA exHeapP exHeapB
    0 0 0 0 (by decide) (by decide) (by decide) (by decide)
  ⟨⟨by decide, by decide, by decide, by decide⟩,
   h.1.1.trans rfl, h.2.1.1.trans rfl, h.2.2.1.1.trans rfl, h.2.2.2.1.trans rfl⟩

theorem C10_last_row_wins_witness :
    qtyMap (exPlan ++ [("0123", some 7)]) (digitsKey (some ("0123"))) = some 7
    ∧ ("9" ≠ digitsKey (some ("0123")))
    ∧ qtyMap (exPlan ++ [("0123", some 7)]) "9" = qtyMap exPlan "9"
    ∧ qtyMap (exPlan ++ [("0123", some 7)]) "123" = some 7
    ∧ qtyMap exPlan "123" = some 5 :=
  ⟨(C10_last_row_wins exPlan "0123" (some 7) "9").1,
   by decide,
   (C10_last_row_wins exPlan "0123" (some 7) "9").2 (by decide),
   by decide, by decide⟩

end StockPlanner
